import Mathlib

/-!
Shallow embedding of the OneNote-RAG authentication module (`src/auth.py`,
class `OneNoteAuth`) and proofs about it.

Modelling conventions:
* Python `Optional[str]` becomes `Option String`; Python string truthiness
  (`if s:`) becomes `strTruthy : Option String → Bool` (present and non-empty).
* `pathlib.Path` values are modelled as plain `String` paths.
* The filesystem state touched by the credential store is `StoreFS`
  (existence, contents and permission mode of the token file and its parent
  directory); failure injection for the individual OS calls lives in
  `StoreEnv`, and a raised Python exception is `Except.error`.
* The MSAL `PublicClientApplication` is an oracle `MsalApp` giving the
  provider's scripted responses; token-endpoint responses are `TokenResult`
  records whose `Option` fields model Python dict key presence.
* `get_access_token` returns its outcome together with the final filesystem
  state and a trace of `AuthEvent`s recording which provider endpoints were
  called, what was persisted and what was logged.
-/

/-- Python truthiness of an `Optional[str]`: `if s:` is taken iff the value is
present and non-empty. -/
def strTruthy : Option String → Bool
  | none => false
  | some s => !s.isEmpty

/-- Filesystem state seen by the credential store: the token file's parent
directory and the token file itself (`self.token_path`). Modes are `none`
when never set by the code under study. -/
structure StoreFS where
  parentExists : Bool
  parentMode : Option Nat
  fileExists : Bool
  fileContents : String
  fileMode : Option Nat
deriving DecidableEq, Repr

/-- OS-level environment for the store operations: the platform name
(`os.name`, `"nt"` on Windows-like platforms) and failure injection for each
individual OS call made by `_ensure_token_dir` / `_save_refresh_token`. -/
structure StoreEnv where
  osName : String
  mkdirFails : Bool
  chmodDirFails : Bool
  writeFails : Bool
  chmodFileFails : Bool
deriving DecidableEq, Repr

/-- `OneNoteAuth._ensure_token_dir`: if the parent directory does not exist,
create it (`mkdir(parents=True, exist_ok=True)`) and, when not on Windows,
chmod it to `0o700`. An existing parent is left untouched. -/
def ensure_token_dir (env : StoreEnv) (fs : StoreFS) : Except String StoreFS :=
  if !fs.parentExists then
    if env.mkdirFails then .error "mkdir failed"
    else
      let fs1 : StoreFS := { fs with parentExists := true }
      if env.osName ≠ "nt" then
        if env.chmodDirFails then .error "chmod dir failed"
        else .ok { fs1 with parentMode := some 0o700 }
      else .ok fs1
  else .ok fs

/-- `OneNoteAuth._save_refresh_token`: ensure the directory, overwrite the file
with the token, and, when not on Windows, chmod the file to `0o600`. The
Python `try`/`except` logs and then re-raises, so every failure propagates as
`Except.error`. -/
def save_refresh_token (env : StoreEnv) (fs : StoreFS) (token : String) :
    Except String StoreFS :=
  match ensure_token_dir env fs with
  | .error e => .error e
  | .ok fs1 =>
    if env.writeFails then .error "write failed"
    else
      let fs2 : StoreFS := { fs1 with fileExists := true, fileContents := token }
      if env.osName ≠ "nt" then
        if env.chmodFileFails then .error "chmod file failed"
        else .ok { fs2 with fileMode := some 0o600 }
      else .ok fs2

/-- ASCII whitespace, the characters Python's `str.strip()` removes from
ASCII text (the model restricts itself to ASCII whitespace). -/
def isPySpace (c : Char) : Bool :=
  c = ' ' || c = '\t' || c = '\n' || c = '\x0b' || c = '\x0c' || c = '\r'

/-- Python's `str.strip()`: drop leading and trailing whitespace. -/
def pyStrip (s : String) : String :=
  String.mk (((s.data.dropWhile isPySpace).reverse.dropWhile isPySpace).reverse)

/-- `OneNoteAuth._load_refresh_token`: if the token file exists, read and strip
it, returning `none` for an empty result; any exception (modelled by the
`readFails` flag) is caught and yields `none`. Never raises. -/
def load_refresh_token (fs : StoreFS) (readFails : Bool) : Option String :=
  if fs.fileExists then
    if readFails then none
    else
      let token := pyStrip fs.fileContents
      if token = "" then none else some token
  else none

/-- The exact `ValueError` message raised by `OneNoteAuth._get_client_id` when
no client identifier can be resolved; it enumerates the three options. -/
def clientIdErrorMsg : String :=
  "MS_CLIENT_ID must be set. Options:\n" ++
  "1. Pass as argument: OneNoteAuth(client_id=\x27...\x27)\n" ++
  "2. Set environment variable: export MS_CLIENT_ID=\x27...\x27\n" ++
  "3. Create .env file for local development (only if not in container)"

/-- `OneNoteAuth._get_client_id`: explicit argument, then the `MS_CLIENT_ID`
environment variable, then (outside containers only, and only when the
`dotenv` import succeeds) `load_dotenv()` followed by a re-read of
`MS_CLIENT_ID` (`msClientIdAfterDotenv`); otherwise raise `ValueError`. -/
def get_client_id (client_id : Option String) (msClientId : Option String)
    (is_container : Bool) (dotenvAvailable : Bool)
    (msClientIdAfterDotenv : Option String) : Except String String :=
  if strTruthy client_id then .ok (client_id.getD "")
  else if strTruthy msClientId then .ok (msClientId.getD "")
  else if !is_container && dotenvAvailable && strTruthy msClientIdAfterDotenv then
    .ok (msClientIdAfterDotenv.getD "")
  else .error clientIdErrorMsg

/-- `OneNoteAuth._resolve_token_path`: a truthy explicit path is used verbatim;
otherwise the Docker secrets file if `/run/secrets` (the parent of the docker
path) exists, else `~/.onenote_rag/refresh_token`. -/
def resolve_token_path (token_path : Option String) (secretsDirExists : Bool)
    (home : String) : String :=
  if strTruthy token_path then token_path.getD ""
  else if secretsDirExists then "/run/secrets/ms_refresh_token"
  else home ++ "/.onenote_rag/refresh_token"

/-- A token-endpoint response from the identity provider, as a Python dict:
an `Option` field is `some` exactly when the corresponding key is present. -/
structure TokenResult where
  access_token : Option String
  refresh_token : Option String
  error_description : Option String
  error : Option String
deriving DecidableEq, Repr

/-- The device-flow initiation response (`initiate_device_flow`); again
`user_code` is `some` iff the `"user_code"` key is present. -/
structure DeviceFlow where
  user_code : Option String
  verification_uri : String
deriving DecidableEq, Repr

/-- Oracle for the `msal.PublicClientApplication` instance: the provider's
scripted responses to the three operations `get_access_token` uses. -/
structure MsalApp where
  acquire_token_by_refresh_token : String → List String → TokenResult
  initiate_device_flow : List String → DeviceFlow
  acquire_token_by_device_flow : DeviceFlow → TokenResult

/-- Observable events of one `get_access_token` call: provider-endpoint
calls, persistence through the credential store, and the diagnostic log of a
failed silent refresh. -/
inductive AuthEvent where
  | silentRefresh (rt : String)
  | savedToken (t : String)
  | deviceFlowInit
  | deviceFlowComplete
  | loggedSilentFailure (desc : String)
deriving DecidableEq, Repr

/-- Mutable instance state of a constructed `OneNoteAuth` object. -/
structure AuthState where
  is_container : Bool
  client_id : String
  tenant_id : String
  scope : List String
  token_path : String
  refresh_token : Option String
deriving DecidableEq, Repr

deriving instance DecidableEq for Except

/-- Result of one `get_access_token` call: the returned access token or the
raised exception, the filesystem state after the call, and the event trace. -/
structure GATResult where
  outcome : Except String String
  fs : StoreFS
  events : List AuthEvent
deriving DecidableEq, Repr

/-- The device-code branch of `get_access_token` (lines 136-159 of
`src/auth.py`): initiate the flow, raise if no user code, block on
completion, persist any returned refresh token, return the access token or
raise with the provider's error description. -/
def device_code_flow (app : MsalApp) (env : StoreEnv) (m : AuthState)
    (fs : StoreFS) (ev : List AuthEvent) : GATResult :=
  let flow := app.initiate_device_flow m.scope
  let ev := ev ++ [AuthEvent.deviceFlowInit]
  match flow.user_code with
  | none => ⟨.error "Failed to create device flow", fs, ev⟩
  | some _ =>
    let result := app.acquire_token_by_device_flow flow
    let ev := ev ++ [AuthEvent.deviceFlowComplete]
    match result.access_token with
    | some at_ =>
      match result.refresh_token with
      | some nrt =>
        match save_refresh_token env fs nrt with
        | .ok fs1 => ⟨.ok at_, fs1, ev ++ [AuthEvent.savedToken nrt]⟩
        | .error e => ⟨.error e, fs, ev⟩
      | none => ⟨.ok at_, fs, ev⟩
    | none =>
      ⟨.error ("Authentication failed: " ++
        (result.error_description.getD (result.error.getD "Unknown error"))),
       fs, ev⟩

/-- `OneNoteAuth.get_access_token`: with a truthy cached refresh token, try
the silent exchange first; on an access token, persist any new refresh token
and return; otherwise log the provider's error description and fall through
to the device-code flow. With no cached token, go straight to the
device-code flow. Note the code never assigns `self.refresh_token`, so `m`
itself is unchanged by the call. -/
def get_access_token (app : MsalApp) (env : StoreEnv) (m : AuthState)
    (fs : StoreFS) : GATResult :=
  if strTruthy m.refresh_token then
    let rt := m.refresh_token.getD ""
    let result := app.acquire_token_by_refresh_token rt m.scope
    let ev := [AuthEvent.silentRefresh rt]
    match result.access_token with
    | some at_ =>
      match result.refresh_token with
      | some nrt =>
        match save_refresh_token env fs nrt with
        | .ok fs1 => ⟨.ok at_, fs1, ev ++ [AuthEvent.savedToken nrt]⟩
        | .error e => ⟨.error e, fs, ev⟩
      | none => ⟨.ok at_, fs, ev⟩
    | none =>
      device_code_flow app env m fs
        (ev ++ [AuthEvent.loggedSilentFailure
          (result.error_description.getD "Unknown error")])
  else device_code_flow app env m fs []

/-- Events of `OneNoteAuth.__init__` relevant to the claims: construction of
the identity-provider client (`msal.PublicClientApplication`). -/
inductive InitEvent where
  | constructedIdentityClient (client_id : String) (authority : String)
deriving DecidableEq, Repr

/-- Process environment as seen by `OneNoteAuth.__init__`. -/
structure Env where
  dockerenvExists : Bool
  containerenvExists : Bool
  msClientId : Option String
  dotenvAvailable : Bool
  msClientIdAfterDotenv : Option String
  secretsDirExists : Bool
  home : String
  store : StoreFS
  readFails : Bool
deriving Repr

/-- `OneNoteAuth.__init__`: container detection from the two sentinel files,
client-id resolution (which may raise, aborting construction before the MSAL
client is built), token-path resolution, MSAL client construction, and the
initial load of the persisted refresh token. -/
def init_auth (env : Env) (token_path : Option String)
    (client_id : Option String) : Except String AuthState × List InitEvent :=
  let is_container := env.dockerenvExists || env.containerenvExists
  match get_client_id client_id env.msClientId is_container
      env.dotenvAvailable env.msClientIdAfterDotenv with
  | .error e => (.error e, [])
  | .ok cid =>
    let tp := resolve_token_path token_path env.secretsDirExists env.home
    let rt := load_refresh_token env.store env.readFails
    (.ok { is_container := is_container, client_id := cid,
           tenant_id := "common", scope := ["Notes.Read"], token_path := tp,
           refresh_token := rt },
     [InitEvent.constructedIdentityClient cid
        ("https://login.microsoftonline.com/" ++ "common")])

/-! ### Helper lemmas -/

/-- Python truthiness of a present string is exactly non-emptiness. -/
theorem strTruthy_some_iff (s : String) : strTruthy (some s) = true ↔ s ≠ "" := by
  simp [strTruthy, ← String.isEmpty_iff, Bool.not_eq_true]

/-- With no failure injected, `_save_refresh_token` succeeds and the
resulting file holds exactly the given token. -/
theorem save_refresh_token_ok (env : StoreEnv) (fs : StoreFS) (t : String)
    (h1 : env.mkdirFails = false) (h2 : env.chmodDirFails = false)
    (h3 : env.writeFails = false) (h4 : env.chmodFileFails = false) :
    ∃ fs1, save_refresh_token env fs t = .ok fs1 ∧
      fs1.fileExists = true ∧ fs1.fileContents = t := by
  unfold save_refresh_token ensure_token_dir
  by_cases hp : fs.parentExists = true <;>
    by_cases hos : env.osName = "nt" <;>
      simp [hp, h1, h2, h3, h4, hos]

/-! ### C5: client-identifier resolution precedence -/

/-- C5: `_get_client_id` obeys the strict precedence order: a non-empty
explicit identifier wins unconditionally; otherwise a non-empty
`MS_CLIENT_ID` environment variable wins; the `.env` file is consulted only
outside containers (in a container the result is independent of the dotenv
inputs); and when every source fails the guidance `ValueError` is raised. -/
theorem get_client_id_precedence :
    (∀ (c : String) (envc : Option String) (ic da : Bool) (ea : Option String),
      c ≠ "" → get_client_id (some c) envc ic da ea = .ok c) ∧
    (∀ (cid : Option String) (e : String) (ic da : Bool) (ea : Option String),
      strTruthy cid = false → e ≠ "" →
      get_client_id cid (some e) ic da ea = .ok e) ∧
    (∀ (cid envc : Option String) (da da2 : Bool) (ea ea2 : Option String),
      get_client_id cid envc true da ea = get_client_id cid envc true da2 ea2) ∧
    (∀ (cid envc ea : Option String) (ic da : Bool),
      strTruthy cid = false → strTruthy envc = false →
      (ic = true ∨ da = false ∨ strTruthy ea = false) →
      get_client_id cid envc ic da ea = .error clientIdErrorMsg) := by
  refine ⟨?_, ?_, ?_, ?_⟩
  · intro c envc ic da ea hc
    simp [get_client_id, (strTruthy_some_iff c).2 hc]
  · intro cid e ic da ea hcid he
    simp [get_client_id, hcid, (strTruthy_some_iff e).2 he]
  · intro cid envc da da2 ea ea2
    simp [get_client_id]
  · intro cid envc ea ic da hcid henv hrest
    rcases hrest with h | h | h <;> simp [get_client_id, hcid, henv, h]

/-- Witness for C5 at concrete inputs exercising all four conjuncts. -/
theorem get_client_id_precedence_witness :
    get_client_id (some "explicit-cid") (some "env-cid") true true
      (some "file-cid") = .ok "explicit-cid" ∧
    get_client_id none (some "env-cid") false true (some "file-cid") =
      .ok "env-cid" ∧
    get_client_id none none true true (some "file-cid") =
      get_client_id none none true false none ∧
    get_client_id none none false false (some "file-cid") =
      .error clientIdErrorMsg :=
  ⟨get_client_id_precedence.1 "explicit-cid" (some "env-cid") true true
      (some "file-cid") (by decide),
   get_client_id_precedence.2.1 none "env-cid" false true (some "file-cid")
      rfl (by decide),
   get_client_id_precedence.2.2.1 none none true false (some "file-cid") none,
   get_client_id_precedence.2.2.2 none none (some "file-cid") false false rfl
      rfl (Or.inr (Or.inl rfl))⟩

/-! ### C7: token-path resolution -/

/-- C7 counterexample: an explicitly given empty-string override is NOT
returned verbatim — Python's `if token_path:` treats it as absent, and the
home fallback path is returned instead. -/
theorem resolve_token_path_empty_override_cex :
    resolve_token_path (some "") false "/home/user" =
      "/home/user/.onenote_rag/refresh_token" ∧
    resolve_token_path (some "") false "/home/user" ≠ "" := by
  constructor <;> decide

/-- C7 (amended): a NON-EMPTY explicit override is returned verbatim
(an empty-string override is treated as absent); with no truthy override,
the fixed secret-mount file path is returned whenever `/run/secrets`
exists, regardless of the home directory, and the fixed home-subdirectory
path otherwise. -/
theorem resolve_token_path_cases :
    (∀ (p : String) (sd : Bool) (home : String), p ≠ "" →
      resolve_token_path (some p) sd home = p) ∧
    (∀ (tp : Option String) (home : String), strTruthy tp = false →
      resolve_token_path tp true home = "/run/secrets/ms_refresh_token") ∧
    (∀ (tp : Option String) (home : String), strTruthy tp = false →
      resolve_token_path tp false home =
        home ++ "/.onenote_rag/refresh_token") := by
  refine ⟨?_, ?_, ?_⟩
  · intro p sd home hp
    simp [resolve_token_path, (strTruthy_some_iff p).2 hp]
  · intro tp home htp
    simp [resolve_token_path, htp]
  · intro tp home htp
    simp [resolve_token_path, htp]

/-- Witness for C7's amended theorem at concrete inputs. -/
theorem resolve_token_path_cases_witness :
    resolve_token_path (some "/custom/token") true "/home/user" =
      "/custom/token" ∧
    resolve_token_path none true "/home/user" =
      "/run/secrets/ms_refresh_token" ∧
    resolve_token_path none false "/home/user" =
      "/home/user" ++ "/.onenote_rag/refresh_token" :=
  ⟨resolve_token_path_cases.1 "/custom/token" true "/home/user" (by decide),
   resolve_token_path_cases.2.1 none "/home/user" rfl,
   resolve_token_path_cases.2.2 none "/home/user" rfl⟩

/-! ### C8: save/load round-trip and file mode -/

/-- A store environment with no injected failure, on a POSIX platform. -/
def envNoFail : StoreEnv :=
  { osName := "posix", mkdirFails := false, chmodDirFails := false,
    writeFails := false, chmodFileFails := false }

/-- An initial store state: parent directory present, no token file. -/
def fsEmpty : StoreFS :=
  { parentExists := true, parentMode := some 0o700, fileExists := false,
    fileContents := "", fileMode := none }

/-- C8 counterexample: the round-trip is NOT byte-exact for every credential.
Saving `"abc "` and loading gives `"abc"` — `_load_refresh_token` strips
whitespace, so the trailing blank is lost. -/
theorem save_load_roundtrip_cex :
    (save_refresh_token envNoFail fsEmpty "abc ").map
      (fun f => load_refresh_token f false) = .ok (some "abc") ∧
    ("abc" : String) ≠ "abc " := by
  constructor <;> decide

/-- C8 (amended): for every credential that is non-empty and equal to its own
stripped form, `save` followed by `load` returns exactly that credential, and
on non-Windows-like platforms the file mode after `save` is `0o600`
(assuming no OS call fails). -/
theorem save_load_roundtrip (env : StoreEnv) (fs : StoreFS) (t : String)
    (hstrip : pyStrip t = t) (hne : t ≠ "") (hos : env.osName ≠ "nt")
    (h1 : env.mkdirFails = false) (h2 : env.chmodDirFails = false)
    (h3 : env.writeFails = false) (h4 : env.chmodFileFails = false) :
    (save_refresh_token env fs t).map
      (fun f => (load_refresh_token f false, f.fileMode)) =
      .ok (some t, some 0o600) := by
  unfold save_refresh_token ensure_token_dir
  by_cases hp : fs.parentExists = true <;>
    simp [hp, h1, h2, h3, h4, hos, load_refresh_token, hstrip, hne, Except.map]

/-- Witness for C8's amended theorem at a concrete credential. -/
theorem save_load_roundtrip_witness :
    (save_refresh_token envNoFail fsEmpty "tok-123").map
      (fun f => (load_refresh_token f false, f.fileMode)) =
      .ok (some "tok-123", some 0o600) :=
  save_load_roundtrip envNoFail fsEmpty "tok-123" (by decide) (by decide)
    (by decide) rfl rfl rfl rfl

/-! ### C9: load never raises; save failures are re-raised -/

/-- C9: `_load_refresh_token` is total (it returns an `Option`, never an
exception): a missing file, a failed read, and contents empty after
stripping all yield `none`; by contrast every injected failure inside
`_save_refresh_token` surfaces as a raised exception (`Except.error`). -/
theorem load_total_save_reraises (env : StoreEnv) (fs : StoreFS) (t : String)
    (rf : Bool) :
    (fs.fileExists = false → load_refresh_token fs rf = none) ∧
    (rf = true → load_refresh_token fs rf = none) ∧
    (pyStrip fs.fileContents = "" → load_refresh_token fs rf = none) ∧
    (env.writeFails = true →
      (save_refresh_token env fs t).toOption = none) ∧
    (fs.parentExists = false → env.mkdirFails = true →
      (save_refresh_token env fs t).toOption = none) ∧
    (fs.parentExists = false → env.mkdirFails = false →
      env.osName ≠ "nt" → env.chmodDirFails = true →
      (save_refresh_token env fs t).toOption = none) ∧
    (env.osName ≠ "nt" → env.chmodFileFails = true →
      (save_refresh_token env fs t).toOption = none) := by
  refine ⟨?_, ?_, ?_, ?_, ?_, ?_, ?_⟩
  · intro h; simp [load_refresh_token, h]
  · intro h; simp [load_refresh_token, h]
  · intro h; by_cases hf : fs.fileExists = true <;>
      by_cases hr : rf = true <;> simp [load_refresh_token, hf, hr, h]
  · intro hw
    unfold save_refresh_token ensure_token_dir
    by_cases hp : fs.parentExists = true <;>
      by_cases hos : env.osName = "nt" <;>
        by_cases hm : env.mkdirFails = true <;>
          by_cases hcd : env.chmodDirFails = true <;>
            simp [hp, hos, hm, hcd, hw, Except.toOption]
  · intro hp hm
    unfold save_refresh_token ensure_token_dir
    simp [hp, hm, Except.toOption]
  · intro hp hm hos hcd
    unfold save_refresh_token ensure_token_dir
    simp [hp, hm, hos, hcd, Except.toOption]
  · intro hos hcf
    unfold save_refresh_token ensure_token_dir
    by_cases hp : fs.parentExists = true <;>
      by_cases hm : env.mkdirFails = true <;>
        by_cases hcd : env.chmodDirFails = true <;>
          by_cases hw : env.writeFails = true <;>
            simp [hp, hos, hm, hcd, hw, hcf, Except.toOption]

/-- A store environment where every OS call fails, on a POSIX platform. -/
def envAllFail : StoreEnv :=
  { osName := "posix", mkdirFails := true, chmodDirFails := true,
    writeFails := true, chmodFileFails := true }

/-- A store state with no parent directory and no token file. -/
def fsBare : StoreFS :=
  { parentExists := false, parentMode := none, fileExists := false,
    fileContents := "", fileMode := none }

/-- Witness for C9 at a concrete state where every hypothesis holds. -/
theorem load_total_save_reraises_witness :
    load_refresh_token fsBare true = none ∧
    (save_refresh_token envAllFail fsBare "tok").toOption = none :=
  ⟨(load_total_save_reraises envAllFail fsBare "tok" true).1 rfl,
   (load_total_save_reraises envAllFail fsBare "tok" true).2.2.2.1 rfl⟩

/-! ### C10: parent-directory permissions on save -/

/-- C10 counterexample: when the parent directory already exists, a
successful `save` does NOT restrict it to `0o700` — `_ensure_token_dir`
chmods the parent only on the branch that creates it. Here the parent
pre-exists with mode `0o755` and keeps it. -/
theorem save_parent_mode_cex :
    (save_refresh_token envNoFail
        { parentExists := true, parentMode := some 0o755, fileExists := false,
          fileContents := "", fileMode := none } "tok").map
      (fun f => f.parentMode) = .ok (some 0o755) ∧
    (0o755 : Nat) ≠ 0o700 := by
  constructor <;> decide

/-- C10 (amended): on a non-Windows-like platform, when the parent directory
did NOT exist before the call, a successful `save` leaves it created and
restricted to owner-only `0o700`; a pre-existing parent keeps its mode. -/
theorem save_parent_mode (env : StoreEnv) (fs : StoreFS) (t : String)
    (hos : env.osName ≠ "nt")
    (h1 : env.mkdirFails = false) (h2 : env.chmodDirFails = false)
    (h3 : env.writeFails = false) (h4 : env.chmodFileFails = false) :
    (fs.parentExists = false →
      (save_refresh_token env fs t).map
        (fun f => (f.parentExists, f.parentMode)) = .ok (true, some 0o700)) ∧
    (fs.parentExists = true →
      (save_refresh_token env fs t).map
        (fun f => (f.parentExists, f.parentMode)) =
        .ok (true, fs.parentMode)) := by
  constructor <;> intro hp <;>
    simp [save_refresh_token, ensure_token_dir, hp, h1, h2, h3, h4, hos,
      Except.map]

/-- Witness for C10's amended theorem: saving with no pre-existing parent
creates it with mode `0o700`. -/
theorem save_parent_mode_witness :
    (save_refresh_token envNoFail fsBare "tok").map
      (fun f => (f.parentExists, f.parentMode)) = .ok (true, some 0o700) :=
  (save_parent_mode envNoFail fsBare "tok" (by decide) rfl rfl rfl rfl).1 rfl

/-! ### C1: successful silent refresh -/

/-- C1: with a cached (truthy) refresh token, when the silent exchange
response carries both an access token and a refresh token, `get_access_token`
returns that access token, persists the new refresh token through
`_save_refresh_token`, and never touches the device-flow endpoints. -/
theorem silent_refresh_success (app : MsalApp) (env : StoreEnv) (m : AuthState)
    (fs : StoreFS) (rt at_ nrt : String)
    (hrt : m.refresh_token = some rt) (hne : rt ≠ "")
    (ha : (app.acquire_token_by_refresh_token rt m.scope).access_token =
      some at_)
    (hr : (app.acquire_token_by_refresh_token rt m.scope).refresh_token =
      some nrt)
    (h1 : env.mkdirFails = false) (h2 : env.chmodDirFails = false)
    (h3 : env.writeFails = false) (h4 : env.chmodFileFails = false) :
    (get_access_token app env m fs).outcome = .ok at_ ∧
    (get_access_token app env m fs).fs.fileExists = true ∧
    (get_access_token app env m fs).fs.fileContents = nrt ∧
    AuthEvent.savedToken nrt ∈ (get_access_token app env m fs).events ∧
    AuthEvent.deviceFlowInit ∉ (get_access_token app env m fs).events ∧
    AuthEvent.deviceFlowComplete ∉ (get_access_token app env m fs).events := by
  obtain ⟨fs1, hsave, hfe, hfc⟩ := save_refresh_token_ok env fs nrt h1 h2 h3 h4
  have htr : strTruthy m.refresh_token = true := by
    rw [hrt]; exact (strTruthy_some_iff rt).2 hne
  have hgd : m.refresh_token.getD "" = rt := by rw [hrt]; rfl
  simp only [get_access_token, htr, if_true, hgd, ha, hr, hsave]
  simp [hfe, hfc]

/-- Scripted provider for C1's witness: the silent exchange succeeds with the
spec's example payload; the device-flow operations are never reached. -/
def appSilent : MsalApp :=
  { acquire_token_by_refresh_token := fun _ _ =>
      { access_token := some "new-access-token-xyz",
        refresh_token := some "new-refresh-token-abc",
        error_description := none, error := none },
    initiate_device_flow := fun _ =>
      { user_code := some "USER-CODE",
        verification_uri := "https://microsoft.com/devicelogin" },
    acquire_token_by_device_flow := fun _ =>
      { access_token := none, refresh_token := none,
        error_description := none, error := none } }

/-- A constructed manager holding the cached refresh token `"cached-rt"`. -/
def mCached : AuthState :=
  { is_container := false, client_id := "cid", tenant_id := "common",
    scope := ["Notes.Read"], token_path := "/run/secrets/ms_refresh_token",
    refresh_token := some "cached-rt" }

/-- Witness for C1 at the spec's Scenario B payload. -/
theorem silent_refresh_success_witness :
    (get_access_token appSilent envNoFail mCached fsEmpty).outcome =
      .ok "new-access-token-xyz" ∧
    (get_access_token appSilent envNoFail mCached fsEmpty).fs.fileExists =
      true ∧
    (get_access_token appSilent envNoFail mCached fsEmpty).fs.fileContents =
      "new-refresh-token-abc" ∧
    AuthEvent.savedToken "new-refresh-token-abc" ∈
      (get_access_token appSilent envNoFail mCached fsEmpty).events ∧
    AuthEvent.deviceFlowInit ∉
      (get_access_token appSilent envNoFail mCached fsEmpty).events ∧
    AuthEvent.deviceFlowComplete ∉
      (get_access_token appSilent envNoFail mCached fsEmpty).events :=
  silent_refresh_success appSilent envNoFail mCached fsEmpty "cached-rt"
    "new-access-token-xyz" "new-refresh-token-abc" rfl (by decide) rfl rfl
    rfl rfl rfl rfl

/-! ### C2: no cached token, device flow only -/

/-- C2: with no (truthy) cached refresh token, `get_access_token` never calls
the refresh-exchange endpoint; when the device flow completes with an access
and a refresh token it returns the access token and persists the refresh
token through `_save_refresh_token`. -/
theorem device_flow_no_cached (app : MsalApp) (env : StoreEnv) (m : AuthState)
    (fs : StoreFS) (code at_ nrt : String)
    (hrt : strTruthy m.refresh_token = false)
    (huc : (app.initiate_device_flow m.scope).user_code = some code)
    (ha : (app.acquire_token_by_device_flow
        (app.initiate_device_flow m.scope)).access_token = some at_)
    (hr : (app.acquire_token_by_device_flow
        (app.initiate_device_flow m.scope)).refresh_token = some nrt)
    (h1 : env.mkdirFails = false) (h2 : env.chmodDirFails = false)
    (h3 : env.writeFails = false) (h4 : env.chmodFileFails = false) :
    (get_access_token app env m fs).outcome = .ok at_ ∧
    (get_access_token app env m fs).fs.fileExists = true ∧
    (get_access_token app env m fs).fs.fileContents = nrt ∧
    AuthEvent.savedToken nrt ∈ (get_access_token app env m fs).events ∧
    ∀ r, AuthEvent.silentRefresh r ∉ (get_access_token app env m fs).events := by
  obtain ⟨fs1, hsave, hfe, hfc⟩ := save_refresh_token_ok env fs nrt h1 h2 h3 h4
  simp only [get_access_token, hrt, Bool.false_eq_true, if_false,
    device_code_flow, huc, ha, hr, hsave]
  simp [hfe, hfc]

/-- Scripted provider for C2's witness: the refresh exchange would fail if it
were ever called; the device flow succeeds with the spec's example payload. -/
def appDevice : MsalApp :=
  { acquire_token_by_refresh_token := fun _ _ =>
      { access_token := none, refresh_token := none,
        error_description := none, error := some "invalid_grant" },
    initiate_device_flow := fun _ =>
      { user_code := some "USER-CODE",
        verification_uri := "https://microsoft.com/devicelogin" },
    acquire_token_by_device_flow := fun _ =>
      { access_token := some "device-flow-access-token",
        refresh_token := some "device-flow-refresh-token",
        error_description := none, error := none } }

/-- A constructed manager with no cached refresh token. -/
def mNoToken : AuthState :=
  { is_container := false, client_id := "cid", tenant_id := "common",
    scope := ["Notes.Read"], token_path := "/run/secrets/ms_refresh_token",
    refresh_token := none }

/-- Witness for C2 at the spec's Scenario A payload. -/
theorem device_flow_no_cached_witness :
    (get_access_token appDevice envNoFail mNoToken fsEmpty).outcome =
      .ok "device-flow-access-token" ∧
    (get_access_token appDevice envNoFail mNoToken fsEmpty).fs.fileExists =
      true ∧
    (get_access_token appDevice envNoFail mNoToken fsEmpty).fs.fileContents =
      "device-flow-refresh-token" ∧
    AuthEvent.savedToken "device-flow-refresh-token" ∈
      (get_access_token appDevice envNoFail mNoToken fsEmpty).events ∧
    ∀ r, AuthEvent.silentRefresh r ∉
      (get_access_token appDevice envNoFail mNoToken fsEmpty).events :=
  device_flow_no_cached appDevice envNoFail mNoToken fsEmpty "USER-CODE"
    "device-flow-access-token" "device-flow-refresh-token" rfl rfl rfl rfl
    rfl rfl rfl rfl

/-! ### C3: silent failure falls back to the device flow -/

/-- C3: with a cached refresh token, when the silent exchange response lacks
an access token the call does not raise there: the provider's error
description (or `"Unknown error"`) is logged, device-flow initiation and
completion are both called, and the device flow's access token is returned
when it succeeds. -/
theorem silent_failure_fallback (app : MsalApp) (env : StoreEnv)
    (m : AuthState) (fs : StoreFS) (rt code at2 : String)
    (hrt : m.refresh_token = some rt) (hne : rt ≠ "")
    (hna : (app.acquire_token_by_refresh_token rt m.scope).access_token = none)
    (huc : (app.initiate_device_flow m.scope).user_code = some code)
    (ha2 : (app.acquire_token_by_device_flow
        (app.initiate_device_flow m.scope)).access_token = some at2)
    (h1 : env.mkdirFails = false) (h2 : env.chmodDirFails = false)
    (h3 : env.writeFails = false) (h4 : env.chmodFileFails = false) :
    (get_access_token app env m fs).outcome = .ok at2 ∧
    AuthEvent.loggedSilentFailure
        ((app.acquire_token_by_refresh_token rt
          m.scope).error_description.getD "Unknown error") ∈
      (get_access_token app env m fs).events ∧
    AuthEvent.deviceFlowInit ∈ (get_access_token app env m fs).events ∧
    AuthEvent.deviceFlowComplete ∈ (get_access_token app env m fs).events := by
  have htr : strTruthy m.refresh_token = true := by
    rw [hrt]; exact (strTruthy_some_iff rt).2 hne
  have hgd : m.refresh_token.getD "" = rt := by rw [hrt]; rfl
  rcases hdr : (app.acquire_token_by_device_flow
      (app.initiate_device_flow m.scope)).refresh_token with _ | nrt
  · simp only [get_access_token, htr, if_true, hgd, hna, device_code_flow,
      huc, ha2, hdr]
    simp
  · obtain ⟨fs1, hsave, hfe, hfc⟩ :=
      save_refresh_token_ok env fs nrt h1 h2 h3 h4
    simp only [get_access_token, htr, if_true, hgd, hna, device_code_flow,
      huc, ha2, hdr, hsave]
    simp

/-- Scripted provider for C3's witness: the silent exchange answers only
`{error: "invalid_grant"}` (so the logged description defaults to
`"Unknown error"`), and the device flow then succeeds. -/
def appFallback : MsalApp :=
  { acquire_token_by_refresh_token := fun _ _ =>
      { access_token := none, refresh_token := none,
        error_description := none, error := some "invalid_grant" },
    initiate_device_flow := fun _ =>
      { user_code := some "USER-CODE",
        verification_uri := "https://microsoft.com/devicelogin" },
    acquire_token_by_device_flow := fun _ =>
      { access_token := some "device-flow-access-token",
        refresh_token := some "device-flow-refresh-token",
        error_description := none, error := none } }

/-- Witness for C3 at the spec's Scenario C payload. -/
theorem silent_failure_fallback_witness :
    (get_access_token appFallback envNoFail mCached fsEmpty).outcome =
      .ok "device-flow-access-token" ∧
    AuthEvent.loggedSilentFailure "Unknown error" ∈
      (get_access_token appFallback envNoFail mCached fsEmpty).events ∧
    AuthEvent.deviceFlowInit ∈
      (get_access_token appFallback envNoFail mCached fsEmpty).events ∧
    AuthEvent.deviceFlowComplete ∈
      (get_access_token appFallback envNoFail mCached fsEmpty).events :=
  silent_failure_fallback appFallback envNoFail mCached fsEmpty "cached-rt"
    "USER-CODE" "device-flow-access-token" rfl (by decide) rfl rfl rfl
    rfl rfl rfl rfl

/-! ### C4: new refresh tokens are persisted but not adopted in memory -/

/-- Scripted provider for the C4 counterexample: the silent exchange answers
differently depending on which refresh token the manager presents, and
rotates `"construction-rt"` to `"issued-rt"`. -/
def appRotating : MsalApp :=
  { acquire_token_by_refresh_token := fun rt _ =>
      if rt = "construction-rt" then
        { access_token := some "access-1", refresh_token := some "issued-rt",
          error_description := none, error := none }
      else
        { access_token := some "access-2", refresh_token := none,
          error_description := none, error := none },
    initiate_device_flow := fun _ =>
      { user_code := some "USER-CODE",
        verification_uri := "https://microsoft.com/devicelogin" },
    acquire_token_by_device_flow := fun _ =>
      { access_token := none, refresh_token := none,
        error_description := none, error := none } }

/-- A manager whose construction-time refresh token is `"construction-rt"`. -/
def mConstruction : AuthState :=
  { is_container := false, client_id := "cid", tenant_id := "common",
    scope := ["Notes.Read"], token_path := "/run/secrets/ms_refresh_token",
    refresh_token := some "construction-rt" }

/-- C4 counterexample: after a first `get_access_token` persists the newly
issued `"issued-rt"`, a second call on the same instance still presents
`"construction-rt"` to the refresh-exchange endpoint and never presents
`"issued-rt"` — `get_access_token` writes the file but never assigns
`self.refresh_token`. -/
theorem stale_refresh_token_cex :
    (get_access_token appRotating envNoFail mConstruction
      fsEmpty).fs.fileContents = "issued-rt" ∧
    AuthEvent.savedToken "issued-rt" ∈
      (get_access_token appRotating envNoFail mConstruction fsEmpty).events ∧
    AuthEvent.silentRefresh "construction-rt" ∈
      (get_access_token appRotating envNoFail mConstruction
        (get_access_token appRotating envNoFail mConstruction
          fsEmpty).fs).events ∧
    AuthEvent.silentRefresh "issued-rt" ∉
      (get_access_token appRotating envNoFail mConstruction
        (get_access_token appRotating envNoFail mConstruction
          fsEmpty).fs).events := by
  decide

/-- Any event already in the accumulator survives `device_code_flow`. -/
theorem device_code_flow_events_mono (app : MsalApp) (env : StoreEnv)
    (m : AuthState) (fs : StoreFS) (ev : List AuthEvent) (x : AuthEvent)
    (hx : x ∈ ev) : x ∈ (device_code_flow app env m fs ev).events := by
  unfold device_code_flow
  rcases h1 : (app.initiate_device_flow m.scope).user_code with _ | code <;>
    simp only [h1]
  · simp [hx]
  · rcases h2 : (app.acquire_token_by_device_flow
        (app.initiate_device_flow m.scope)).access_token with _ | at_ <;>
      simp only [h2]
    · simp [hx]
    · rcases h3 : (app.acquire_token_by_device_flow
          (app.initiate_device_flow m.scope)).refresh_token with _ | nrt <;>
        simp only [h3]
      · simp [hx]
      · rcases h4 : save_refresh_token env fs nrt with e | fs1 <;>
          simp [h4, hx]

/-- C4 (amended): a refresh token issued by a successful silent renewal, or
by an interactive grant, is persisted immediately through
`_save_refresh_token`; but the in-memory credential is never replaced — every
call on the same instance presents the construction-time refresh token to the
refresh exchange. -/
theorem refresh_token_persisted_not_replaced :
    (∀ (app : MsalApp) (env : StoreEnv) (m : AuthState) (fs : StoreFS)
        (rt at_ nrt : String),
      m.refresh_token = some rt → rt ≠ "" →
      (app.acquire_token_by_refresh_token rt m.scope).access_token =
        some at_ →
      (app.acquire_token_by_refresh_token rt m.scope).refresh_token =
        some nrt →
      env.mkdirFails = false → env.chmodDirFails = false →
      env.writeFails = false → env.chmodFileFails = false →
      (get_access_token app env m fs).fs.fileContents = nrt ∧
      AuthEvent.savedToken nrt ∈ (get_access_token app env m fs).events) ∧
    (∀ (app : MsalApp) (env : StoreEnv) (m : AuthState) (fs : StoreFS)
        (code at_ nrt : String),
      strTruthy m.refresh_token = false →
      (app.initiate_device_flow m.scope).user_code = some code →
      (app.acquire_token_by_device_flow
        (app.initiate_device_flow m.scope)).access_token = some at_ →
      (app.acquire_token_by_device_flow
        (app.initiate_device_flow m.scope)).refresh_token = some nrt →
      env.mkdirFails = false → env.chmodDirFails = false →
      env.writeFails = false → env.chmodFileFails = false →
      (get_access_token app env m fs).fs.fileContents = nrt ∧
      AuthEvent.savedToken nrt ∈ (get_access_token app env m fs).events) ∧
    (∀ (app : MsalApp) (env : StoreEnv) (m : AuthState) (fs : StoreFS)
        (rt : String),
      m.refresh_token = some rt → rt ≠ "" →
      AuthEvent.silentRefresh rt ∈ (get_access_token app env m fs).events) := by
  refine ⟨?_, ?_, ?_⟩
  · intro app env m fs rt at_ nrt hrt hne ha hr h1 h2 h3 h4
    obtain ⟨fs1, hsave, hfe, hfc⟩ :=
      save_refresh_token_ok env fs nrt h1 h2 h3 h4
    have htr : strTruthy m.refresh_token = true := by
      rw [hrt]; exact (strTruthy_some_iff rt).2 hne
    have hgd : m.refresh_token.getD "" = rt := by rw [hrt]; rfl
    simp only [get_access_token, htr, if_true, hgd, ha, hr, hsave]
    simp [hfc]
  · intro app env m fs code at_ nrt hrt huc ha hr h1 h2 h3 h4
    obtain ⟨fs1, hsave, hfe, hfc⟩ :=
      save_refresh_token_ok env fs nrt h1 h2 h3 h4
    simp only [get_access_token, hrt, Bool.false_eq_true, if_false,
      device_code_flow, huc, ha, hr, hsave]
    simp [hfc]
  · intro app env m fs rt hrt hne
    have htr : strTruthy m.refresh_token = true := by
      rw [hrt]; exact (strTruthy_some_iff rt).2 hne
    have hgd : m.refresh_token.getD "" = rt := by rw [hrt]; rfl
    simp only [get_access_token, htr, if_true, hgd]
    rcases ha : (app.acquire_token_by_refresh_token rt m.scope).access_token
        with _ | at_ <;> simp only [ha]
    · exact device_code_flow_events_mono app env m fs _
        (AuthEvent.silentRefresh rt) (by simp)
    · rcases hr : (app.acquire_token_by_refresh_token rt m.scope).refresh_token
          with _ | nrt <;> simp only [hr]
      · simp
      · rcases hs : save_refresh_token env fs nrt with e | fs1 <;> simp [hs]

/-- Witness for C4's amended theorem at concrete scripted providers. -/
theorem refresh_token_persisted_not_replaced_witness :
    ((get_access_token appSilent envNoFail mCached fsEmpty).fs.fileContents =
        "new-refresh-token-abc" ∧
      AuthEvent.savedToken "new-refresh-token-abc" ∈
        (get_access_token appSilent envNoFail mCached fsEmpty).events) ∧
    ((get_access_token appDevice envNoFail mNoToken fsEmpty).fs.fileContents =
        "device-flow-refresh-token" ∧
      AuthEvent.savedToken "device-flow-refresh-token" ∈
        (get_access_token appDevice envNoFail mNoToken fsEmpty).events) ∧
    AuthEvent.silentRefresh "cached-rt" ∈
      (get_access_token appSilent envNoFail mCached fsEmpty).events :=
  ⟨refresh_token_persisted_not_replaced.1 appSilent envNoFail mCached fsEmpty
      "cached-rt" "new-access-token-xyz" "new-refresh-token-abc" rfl
      (by decide) rfl rfl rfl rfl rfl rfl,
   refresh_token_persisted_not_replaced.2.1 appDevice envNoFail mNoToken
      fsEmpty "USER-CODE" "device-flow-access-token"
      "device-flow-refresh-token" rfl rfl rfl rfl rfl rfl rfl rfl,
   refresh_token_persisted_not_replaced.2.2 appSilent envNoFail mCached
      fsEmpty "cached-rt" rfl (by decide)⟩

/-! ### C6: construction fails fast without a client identifier -/

set_option maxRecDepth 4096 in
/-- C6: when no client identifier is resolvable (no truthy explicit argument,
no truthy environment variable, and the dotenv fallback unavailable, gated
off by a container, or empty), `__init__` raises the guidance `ValueError`
and the identity-provider client is never constructed (empty init trace, so
no network-capable object exists); the message names all three options. -/
theorem construction_fails_without_client_id (env : Env)
    (tp cid : Option String)
    (hc : strTruthy cid = false) (he : strTruthy env.msClientId = false)
    (hrest : (env.dockerenvExists || env.containerenvExists) = true ∨
      env.dotenvAvailable = false ∨
      strTruthy env.msClientIdAfterDotenv = false) :
    init_auth env tp cid = (.error clientIdErrorMsg, []) ∧
    "Pass as argument".data <:+: clientIdErrorMsg.data ∧
    "Set environment variable".data <:+: clientIdErrorMsg.data ∧
    "Create .env file".data <:+: clientIdErrorMsg.data := by
  refine ⟨?_, by decide, by decide, by decide⟩
  rcases hrest with h | h | h <;>
    simp [init_auth, get_client_id, hc, he, h]

/-- A process environment with no client identifier available anywhere. -/
def envNoCid : Env :=
  { dockerenvExists := false, containerenvExists := false, msClientId := none,
    dotenvAvailable := false, msClientIdAfterDotenv := none,
    secretsDirExists := false, home := "/home/user", store := fsBare,
    readFails := false }

/-- Witness for C6 at a concrete empty environment. -/
theorem construction_fails_without_client_id_witness :
    init_auth envNoCid none none = (.error clientIdErrorMsg, []) ∧
    "Pass as argument".data <:+: clientIdErrorMsg.data ∧
    "Set environment variable".data <:+: clientIdErrorMsg.data ∧
    "Create .env file".data <:+: clientIdErrorMsg.data :=
  construction_fails_without_client_id envNoCid none none rfl rfl
    (Or.inr (Or.inl rfl))
